import Mathlib

/-!
# Verification of `Winb4ckup_script.py`

A shallow embedding of the backup orchestrator script into Lean 4, together
with theorems settling the specification claims about it.

Conventions of the embedding:
* Python strings are modelled as `List Char` (Python strings are sequences
  of code points; slicing, `strip` and `startswith` are defined below with
  exactly Python's semantics).  Lean `String` literals are converted with
  `String.toList` at the boundary.
* Pure string processing (`parse_rsync_output`) is translated branch by
  branch, in source order, including branches that turn out to be
  unreachable.  Messages built by Python f-strings are represented by an
  inductive `RsyncMsg` whose constructors are in bijection with the
  `return` statements of the Python function; each constructor carries the
  interpolated data (`file_path`, and for the catch-all also `change_type`),
  so no information of the original message is lost.
* Stateful code (the connection monitor loop, the transfer supervisor loop,
  the mount/unmount commands) is translated into explicit state passing:
  external effects (ping results, the rsync process, the mount table)
  become parameters or fields of a state record.
* Python exceptions are modelled explicitly where a claim is about them.
-/

namespace Winb4ckup

/-- The whitespace characters stripped by Python's `str.strip()`
(ASCII range; the script's rsync lines contain no exotic whitespace). -/
def pyIsSpace (c : Char) : Bool :=
  c == ' ' || c == '\t' || c == '\n' || c == '\r' || c == '\x0b' || c == '\x0c'

/-- Python `str.strip()`: drop whitespace from both ends. -/
def pyStrip (s : List Char) : List Char :=
  ((s.dropWhile pyIsSpace).reverse.dropWhile pyIsSpace).reverse

/-- Python `str.startswith(pat)`. -/
def pyStartsWith : List Char → List Char → Bool
  | _, [] => true
  | [], _ :: _ => false
  | c :: s, p :: ps => c == p && pyStartsWith s ps

/-- Python `change_type = line[:11].strip()` (Winb4ckup_script.py line 133). -/
def change_type (line : List Char) : List Char := pyStrip (line.take 11)

/-- Python `file_path = line[12:].strip()` (Winb4ckup_script.py line 134). -/
def file_path (line : List Char) : List Char := pyStrip (line.drop 12)

/-- One constructor per `return` statement of `parse_rsync_output`
(lines 135-187); constructor order follows source order.  Each carries the
`file_path` interpolated into the Python message; the catch-all also carries
the raw `change_type` that the Python message includes verbatim. -/
inductive RsyncMsg where
  | fileCreated (p : List Char)
  | fileTimeUpdated (p : List Char)
  | filePermsTransferred (p : List Char)
  | fileOwnerUpdated (p : List Char)
  | fileSymlinkCreated (p : List Char)
  | symlinkCreated (p : List Char)
  | hardLinkCreated (p : List Char)
  | charDeviceCreated (p : List Char)
  | blockDeviceCreated (p : List Char)
  | socketCreated (p : List Char)
  | dirCreated (p : List Char)
  | dirTimeUpdated (p : List Char)
  | dirTimePermsUpdated (p : List Char)
  | symlinkUpdated (p : List Char)
  | charDeviceUpdated (p : List Char)
  | blockDeviceUpdated (p : List Char)
  | socketUpdated (p : List Char)
  | specialCreated (p : List Char)
  | dirPermsUpdated (p : List Char)
  | filePermsUpdated (p : List Char)
  | unrecognized (p : List Char) (ct : List Char)
  deriving DecidableEq, Repr

/-- The `if/elif` chain of `parse_rsync_output` (lines 135-187) in exact
source order, as a function of the already-extracted `change_type` and
`file_path`.  `none` corresponds to Python `None`. -/
def classify_change (ct fp : List Char) : Option RsyncMsg :=
  if pyStartsWith ct ">f+++++++++".toList then some (.fileCreated fp)
  else if pyStartsWith ct ">f..t......".toList then some (.fileTimeUpdated fp)
  else if pyStartsWith ct ">f.p.......".toList then some (.filePermsTransferred fp)
  else if pyStartsWith ct ">f..o......".toList then some (.fileOwnerUpdated fp)
  else if pyStartsWith ct ">f.s.......".toList then some (.fileSymlinkCreated fp)
  else if pyStartsWith ct ">L+++++++++".toList then some (.symlinkCreated fp)
  else if pyStartsWith ct ">h+++++++++".toList then some (.hardLinkCreated fp)
  else if pyStartsWith ct ">c+++++++++".toList then some (.charDeviceCreated fp)
  else if pyStartsWith ct ">b+++++++++".toList then some (.blockDeviceCreated fp)
  else if pyStartsWith ct ">sf+++++++++".toList then some (.socketCreated fp)
  else if pyStartsWith ct "cd+++++++++".toList then some (.dirCreated fp)
  else if pyStartsWith ct ".d..t......".toList then some (.dirTimeUpdated fp)
  else if pyStartsWith ct ".d..tp.....".toList then some (.dirTimePermsUpdated fp)
  else if pyStartsWith ct ".f".toList then none
  else if pyStartsWith ct ".d".toList then none
  else if pyStartsWith ct "cL".toList then some (.symlinkUpdated fp)
  else if pyStartsWith ct ".L".toList then none
  else if pyStartsWith ct "c".toList then some (.charDeviceUpdated fp)
  else if pyStartsWith ct "b".toList then some (.blockDeviceUpdated fp)
  else if pyStartsWith ct "s".toList then some (.socketUpdated fp)
  else if pyStartsWith ct ">".toList then some (.specialCreated fp)
  else if pyStartsWith ct ".d...p.....".toList then some (.dirPermsUpdated fp)
  else if pyStartsWith ct ".f...p.....".toList then some (.filePermsUpdated fp)
  else some (.unrecognized fp ct)

/-- Embedding of `parse_rsync_output` (lines 129-187). -/
def parse_rsync_output (line : List Char) : Option RsyncMsg :=
  classify_change (change_type line) (file_path line)

/-! ## Connection Monitor (`ConnectionMonitor`, lines 15-56)

One loop iteration of `ConnectionMonitor.run` calls `ping_host` and inspects
the result.  Three things can happen to that call: the ping command returns
code 0, it returns a non-zero code, or `ping_host` itself raises (e.g. the
`ping` binary is missing, `subprocess.run` raises `FileNotFoundError`).  A
trace of the thread is a list of such probe outcomes; the trace ends when
`stop()` sets `stop_monitoring`. -/

/-- Outcome of one `ping_host(ip_address)` call as seen by the monitor loop. -/
inductive ProbeResult where
  | ok
  | unreachable
  | err
  deriving DecidableEq, Repr

/-- Observable state of a `ConnectionMonitor` thread. -/
structure MonitorState where
  is_alive : Bool
  warnings : Nat
  crashed : Bool
  deriving DecidableEq, Repr

/-- One iteration of the `while not self.stop_monitoring` loop
(lines 41-49).  A non-zero return code sets `is_alive = False` and logs the
connection-lost warning (there is no check of the previous value of
`is_alive`, so the warning is logged again on every failed probe).  An
exception from `ping_host` is uncaught in `run`, so it kills the thread:
once `crashed`, no further iteration runs. -/
def monitorStep (s : MonitorState) (r : ProbeResult) : MonitorState :=
  if s.crashed then s
  else
    match r with
    | .ok => s
    | .unreachable => { s with is_alive := false, warnings := s.warnings + 1 }
    | .err => { s with crashed := true }

/-- The monitor thread processing a finite trace of probe outcomes,
starting from the `__init__` state `is_alive = True` (line 31). -/
def monitorRun (probes : List ProbeResult) : MonitorState :=
  probes.foldl monitorStep ⟨true, 0, false⟩

/-! ## Transfer Supervisor (`rsync_files`, lines 237-317, and
`terminate_rsync`, lines 217-235)

The subprocess's pending output is a list of lines (`readline` returning an
empty string, i.e. end of list, breaks the loop).  `alive i` is the value of
`monitor.is_alive` observed at the `if not monitor.is_alive` check after the
`i`-th line.  `exitCode` is the code rsync would exit with if left to finish.
The state records everything the claims observe: whether the subprocess is
still running, its return code, how many times `unmount_cifs_share()` was
called, the audit-log entries appended, and which log messages were
emitted. -/

/-- Observable state of one `rsync_files` invocation. -/
structure SupState where
  procRunning : Bool
  returncode : Int
  unmounts : Nat
  audit : List RsyncMsg
  linkLostWarned : Bool
  failedLogged : Bool
  completedLogged : Bool
  monitorStopped : Bool
  deriving DecidableEq, Repr

/-- Embedding of `terminate_rsync` (lines 217-235): if the process is still
running it is terminated (gracefully, or killed after the 10 s timeout);
either way it is no longer running afterwards and its return code is the
termination signal's (modelled as -15; only `≠ 0` matters downstream).
On an already-exited process it does nothing. -/
def terminate_rsync (s : SupState) : SupState :=
  if s.procRunning then { s with procRunning := false, returncode := -15 } else s

/-- One `unmount_cifs_share()` call as seen from `rsync_files` (the claims
about the supervisor count releases; the mount-table state machine itself is
modelled separately below). -/
def supUnmount (s : SupState) : SupState :=
  { s with unmounts := s.unmounts + 1 }

/-- Lines 285-290: classify the line; if the result is not `None`, append a
timestamped entry to the log file. -/
def logLine (line : List Char) (s : SupState) : SupState :=
  match parse_rsync_output line with
  | some m => { s with audit := s.audit ++ [m] }
  | none => s

/-- The `while True` read loop of `rsync_files` (lines 280-297): read a
line (stream end breaks the loop), log its classification, then check
`monitor.is_alive`; on the first observed `false`, log the warning,
terminate rsync, unmount, and break. -/
def rsyncLoop (alive : Nat → Bool) : List (List Char) → Nat → SupState → SupState
  | [], _, s => s
  | line :: rest, i, s =>
    let s1 := logLine line s
    if alive i then rsyncLoop alive rest (i + 1) s1
    else supUnmount (terminate_rsync { s1 with linkLostWarned := true })

/-- Python `rsync_process.wait()` (line 299): if the process is still running it
runs to completion and exits with `exitCode`. -/
def procWait (exitCode : Int) (s : SupState) : SupState :=
  if s.procRunning then { s with procRunning := false, returncode := exitCode } else s

/-- Embedding of `rsync_files` (lines 237-317).  `mounted` is the result of
the `os.path.ismount` pre-check (line 267): when false the function returns
before the monitor or subprocess is started.  Otherwise: spawn the process,
run the read loop, `wait()`, handle a non-zero return code (log the error,
terminate, unmount, `return` — which still runs the `finally`), or log
success; the `finally` block (lines 311-315) stops the monitor and unmounts
once more on every path. -/
def rsync_files (lines : List (List Char)) (alive : Nat → Bool) (exitCode : Int)
    (mounted : Bool) : SupState :=
  let s0 : SupState :=
    { procRunning := false, returncode := 0, unmounts := 0, audit := [],
      linkLostWarned := false, failedLogged := false, completedLogged := false,
      monitorStopped := false }
  if !mounted then s0
  else
    let s1 := { s0 with procRunning := true }
    let s2 := rsyncLoop alive lines 0 s1
    let s3 := procWait exitCode s2
    let s4 :=
      if s3.returncode ≠ 0 then supUnmount (terminate_rsync { s3 with failedLogged := true })
      else { s3 with completedLogged := true }
    supUnmount { s4 with monitorStopped := true }

/-! ## Mount Manager (`mount_cifs_share`, lines 319-347, and
`unmount_cifs_share`, lines 349-366)

The mount point is a single global resource; CIFS mounts on the same mount
point stack, so the mount-table state is the number of sessions stacked on
`config.mount_point`.  `umount -f -l` detaches the top session when one
exists; when none does, the command fails, `subprocess.run(check=True)`
raises `CalledProcessError`, and the `except` clause catches and logs it —
the state is unchanged and nothing propagates. -/

/-- Mount-table state at `config.mount_point`. -/
structure MountState where
  sessions : Nat
  deriving DecidableEq, Repr

/-- Embedding of `unmount_cifs_share` (lines 349-366): `fuser -k` then a
forced lazy `umount`.  Detaches one session when present; on an unmounted
point the failure is caught and logged, leaving the state unchanged
(`Nat` subtraction gives both cases).  Never raises. -/
def unmount_cifs_share (s : MountState) : MountState :=
  { sessions := s.sessions - 1 }

/-- Embedding of `mount_cifs_share` (lines 319-347).  First unmounts any
stale session (line 324), then runs the external mount command, whose
outcome is `mountOk`; `verifyOk` is the outcome of the two post-mount
checks (`os.path.ismount` and the `Users` marker directory, lines 331-338).
Returns the new mount-table state and the Python return value.  Note a
mount that succeeds but fails verification stays mounted. -/
def mount_cifs_share (mountOk verifyOk : Bool) (s : MountState) : MountState × Bool :=
  let s1 := unmount_cifs_share s
  if mountOk then
    let s2 : MountState := { sessions := s1.sessions + 1 }
    (s2, verifyOk)
  else (s1, false)

/-! ## Deletion Auditor (`get_file_list`, lines 189-197, and
`log_deleted_files`, lines 199-215)

`os.walk` yields `(root, dirs, files)` triples; `get_file_list` collects
`os.path.join(root, file)` for the `files` component only (the `dirs`
component is discarded via `_`).  Roots are presented relative to the walked
directory, so that `os.path.relpath(os.path.join(root, f), base)`, which
`log_deleted_files` applies, is `pathJoin root f` itself. -/

/-- One `(root, dirs, files)` triple yielded by `os.walk`. -/
structure WalkEntry where
  root : String
  dirs : List String
  files : List String
  deriving DecidableEq, Repr

/-- Embedding of `os.path.join` for the relative paths occurring here. -/
def pathJoin (pre name : String) : String :=
  if pre = "" then name else pre ++ "/" ++ name

/-- Embedding of `get_file_list` (lines 189-197): all file paths of the walk;
directory names are never collected. -/
def get_file_list (walk : List WalkEntry) : List String :=
  walk.flatMap fun e => e.files.map (pathJoin e.root)

/-- The set `dest_relative_files - src_relative_files` computed by
`log_deleted_files` (lines 206-208) from the two relative-path
enumerations. -/
def deleted_files (src_rel dest_rel : List String) : Finset String :=
  dest_rel.toFinset \ src_rel.toFinset

/-- The audit entries written by the `for deleted_file in deleted_files`
loop (lines 210-215): one log line per element of the set, identified here
by the path interpolated into the message (Python iterates the set in an
unspecified order; a sorted enumeration is one such order). -/
def deletion_audit_entries (src_rel dest_rel : List String) : List String :=
  (deleted_files src_rel dest_rel).sort (· ≤ ·)

/-- The function `log_deleted_files` end to end over the two walks. -/
def log_deleted_files (srcWalk destWalk : List WalkEntry) : Finset String :=
  deleted_files (get_file_list srcWalk) (get_file_list destWalk)

/-! ## Backup Orchestrator (`main`, lines 475-519)

The `try` at line 493 wraps the whole `for line in not_reachable` host loop,
and the matching `except` at line 513 is outside that loop.  Processing one
host (ping, mount with retries, `backup_user_directories`, unmount) either
completes or raises an unexpected exception; each host of the inventory is
abstracted by that one bit. -/

/-- Observable outcome of `main`'s try/except region. -/
structure RunResult where
  hostsProcessed : Nat
  exceptionLogged : Bool
  escaped : Bool
  deriving DecidableEq, Repr

/-- Embedding of the host loop inside `main`'s `try` (lines 493-514).
`raises` per host says whether processing that host raises an unexpected
exception.  A raise transfers control to the `except Exception` clause at
line 513, which logs it; the loop is abandoned, so the remaining hosts are
not visited, and nothing propagates out of `main` (`escaped` is always
false). -/
def mainHostLoop : List Bool → RunResult
  | [] => ⟨0, false, false⟩
  | raises :: rest =>
    if raises then ⟨0, true, false⟩
    else
      let r := mainHostLoop rest
      ⟨r.hostsProcessed + 1, r.exceptionLogged, false⟩

/-! ## Helper lemmas -/

lemma monitor_foldl_crashed_stays :
    ∀ (probes : List ProbeResult) (s : MonitorState), s.crashed = true →
      probes.foldl monitorStep s = s := by
  intro probes
  induction probes with
  | nil => intro s _; rfl
  | cons r rest ih =>
    intro s hc
    simp only [List.foldl_cons, monitorStep, hc, if_pos]
    exact ih s hc

lemma monitor_foldl_allOk :
    ∀ (probes : List ProbeResult) (s : MonitorState),
      (∀ r ∈ probes, r = ProbeResult.ok) → probes.foldl monitorStep s = s := by
  intro probes
  induction probes with
  | nil => intro s _; rfl
  | cons r rest ih =>
    intro s hok
    have hr : r = ProbeResult.ok := hok r (List.mem_cons_self r rest)
    subst hr
    have hstep : monitorStep s ProbeResult.ok = s := by
      unfold monitorStep
      by_cases hc : s.crashed = true <;> simp [hc]
    simp only [List.foldl_cons, hstep]
    exact ih s fun x hx => hok x (List.mem_cons_of_mem _ hx)

lemma monitor_foldl_noErr :
    ∀ (probes : List ProbeResult) (s : MonitorState), s.crashed = false →
      ProbeResult.err ∉ probes →
      (probes.foldl monitorStep s).crashed = false ∧
      (probes.foldl monitorStep s).warnings = s.warnings + probes.count .unreachable ∧
      (probes.foldl monitorStep s).is_alive
        = (s.is_alive && (probes.count .unreachable == 0)) := by
  intro probes
  induction probes with
  | nil => intro s hc _; simp [hc]
  | cons r rest ih =>
    intro s hc hmem
    have hrest : ProbeResult.err ∉ rest := fun h => hmem (List.mem_cons_of_mem _ h)
    have hr : r ≠ ProbeResult.err := fun h => hmem (h ▸ List.mem_cons_self r rest)
    cases r with
    | err => exact absurd rfl hr
    | ok =>
      have hstep : monitorStep s ProbeResult.ok = s := by simp [monitorStep, hc]
      simpa [hstep, List.count_cons] using ih s hc hrest
    | unreachable =>
      have hstep : monitorStep s ProbeResult.unreachable
          = { s with is_alive := false, warnings := s.warnings + 1 } := by
        simp [monitorStep, hc]
      obtain ⟨h1, h2, h3⟩ :=
        ih { s with is_alive := false, warnings := s.warnings + 1 } (by simp [hc]) hrest
      refine ⟨by simpa [hstep] using h1, ?_, ?_⟩
      · simp only [List.foldl_cons, hstep]
        rw [h2]
        simp [List.count_cons]
        omega
      · simp only [List.foldl_cons, hstep]
        rw [h3]
        simp [List.count_cons]

/-! ## Claims about the Backup Orchestrator and Connection Monitor -/

/-- C1 counterexample.  Inventory of two hosts where processing the first
raises an unexpected exception and the second would process cleanly: the
claim says the run proceeds to the next host, so the one clean host should
be processed, but the code processes zero hosts — the `except` at line 513
sits outside the `for` loop, so the loop is abandoned. -/
theorem c1_counterexample :
    (mainHostLoop [true, false]).hostsProcessed ≠ [true, false].count false := by
  decide

/-- C1 (amended): an unexpected exception while processing one host is
caught by the try/except wrapping the whole host loop — it is logged and
never propagates out of `main` — but it is caught at the run boundary, not
the host boundary: the hosts processed are exactly the maximal prefix of
non-raising hosts, and every host from the first raising one on is
skipped. -/
theorem c1_exception_caught_at_run_level (hosts : List Bool) :
    (mainHostLoop hosts).escaped = false ∧
    (mainHostLoop hosts).exceptionLogged = hosts.any id ∧
    (mainHostLoop hosts).hostsProcessed = (hosts.takeWhile (fun b => !b)).length := by
  induction hosts with
  | nil => exact ⟨rfl, rfl, rfl⟩
  | cons b rest ih =>
    cases b with
    | true => exact ⟨rfl, rfl, rfl⟩
    | false =>
      refine ⟨rfl, ?_, ?_⟩
      · simpa [mainHostLoop] using ih.2.1
      · simpa [mainHostLoop, List.takeWhile] using ih.2.2

/-- C3 counterexample.  Two consecutive failed probes: the claim allows
exactly one connection-lost warning for the single alive→dead transition,
but the loop body (lines 45-47) logs the warning on every failed probe with
no memory of the previous state, so two warnings are logged. -/
theorem c3_counterexample :
    (monitorRun [ProbeResult.unreachable, ProbeResult.unreachable]).warnings = 2 ∧
    (monitorRun [ProbeResult.unreachable, ProbeResult.unreachable]).warnings ≠ 1 := by
  decide

/-- C3 (amended): while no probe raises, the monitor logs the
connection-lost warning once per *failed probe*, not once per alive→dead
transition — the warning count equals the number of failed probes — and the
`alive` flag is false exactly when some probe has failed. -/
theorem c3_warning_per_failed_probe (probes : List ProbeResult)
    (h : ProbeResult.err ∉ probes) :
    (monitorRun probes).warnings = probes.count .unreachable ∧
    ((monitorRun probes).is_alive = false ↔ ProbeResult.unreachable ∈ probes) := by
  obtain ⟨_, h2, h3⟩ := monitor_foldl_noErr probes ⟨true, 0, false⟩ rfl h
  refine ⟨by simpa [monitorRun] using h2, ?_⟩
  simp only [monitorRun] at h3 ⊢
  rw [h3]
  simp [← List.count_pos_iff, Nat.pos_iff_ne_zero]

/-- C3 witness: a trace with two failed probes separated by a successful
one; the theorem applies and gives warning count 2. -/
theorem c3_warning_per_failed_probe_witness :
    (monitorRun [ProbeResult.unreachable, ProbeResult.ok, ProbeResult.unreachable]).warnings
      = [ProbeResult.unreachable, ProbeResult.ok, ProbeResult.unreachable].count .unreachable ∧
    ((monitorRun [ProbeResult.unreachable, ProbeResult.ok,
        ProbeResult.unreachable]).is_alive = false ↔
      ProbeResult.unreachable ∈ [ProbeResult.unreachable, ProbeResult.ok,
        ProbeResult.unreachable]) :=
  c3_warning_per_failed_probe
    [ProbeResult.unreachable, ProbeResult.ok, ProbeResult.unreachable] (by decide)

/-- C9 counterexample.  A single probe that raises: the claim says probe
errors never terminate the monitor thread, but `ConnectionMonitor.run`
(lines 41-49) has no try/except around `ping_host`, so the exception
propagates and the thread dies without `stop()` ever being called. -/
theorem c9_counterexample :
    (monitorRun [ProbeResult.err]).crashed = true ∧
    (monitorRun [ProbeResult.err]).crashed ≠ false := by
  decide

/-- C9 (amended): a probe error is *not* treated as an unreachable host —
after any run of healthy probes, the first probe that raises kills the
monitor thread (no later probe runs), while `is_alive` is left `true` and no
connection-lost warning has been logged.  Only non-zero ping return codes
mark the host unreachable. -/
theorem c9_probe_error_crashes_monitor (pre post : List ProbeResult)
    (h : ∀ r ∈ pre, r = ProbeResult.ok) :
    (monitorRun (pre ++ ProbeResult.err :: post)).crashed = true ∧
    (monitorRun (pre ++ ProbeResult.err :: post)).is_alive = true ∧
    (monitorRun (pre ++ ProbeResult.err :: post)).warnings = 0 := by
  have hinit : monitorRun (pre ++ ProbeResult.err :: post)
      = (ProbeResult.err :: post).foldl monitorStep ⟨true, 0, false⟩ := by
    rw [monitorRun, List.foldl_append, monitor_foldl_allOk pre _ h]
  have hstep : monitorStep ⟨true, 0, false⟩ ProbeResult.err = ⟨true, 0, true⟩ := by
    simp [monitorStep]
  rw [hinit, List.foldl_cons, hstep, monitor_foldl_crashed_stays post _ rfl]
  exact ⟨rfl, rfl, rfl⟩

/-- C9 witness: one healthy probe, then a raising probe, then an
unreachable probe that never gets to run. -/
theorem c9_probe_error_crashes_monitor_witness :
    (monitorRun ([ProbeResult.ok] ++ ProbeResult.err :: [ProbeResult.unreachable])).crashed
      = true ∧
    (monitorRun ([ProbeResult.ok] ++
      ProbeResult.err :: [ProbeResult.unreachable])).is_alive = true ∧
    (monitorRun ([ProbeResult.ok] ++
      ProbeResult.err :: [ProbeResult.unreachable])).warnings = 0 :=
  c9_probe_error_crashes_monitor [ProbeResult.ok] [ProbeResult.unreachable] (by decide)

/-! ## Claims about the Change Classifier -/

/-- C4: the code suppresses permission-only metadata updates. The dedicated
branches for `.f...p.....` and `.d...p.....` (lines 180-185) sit *after*
the `.f`/`.d` no-op catch-alls (lines 161-166), so they are unreachable:
`classify` returns `None` for permission-only lines and the read loop
(lines 285-290) therefore writes no audit entry for them. -/
theorem c4_metadata_update_suppressed :
    parse_rsync_output ".f...p..... docs/report.txt".toList = none ∧
    parse_rsync_output ".d...p..... photos".toList = none := by
  decide

/-! ## Claims about the Mount Manager -/

/-- C8: `mount_cifs_share` begins by force-unmounting the mount point
(line 324); starting from at most one active session, the unmount clears it
(absence of a session leaves the state unchanged and is caught, not
raised), and two consecutive acquires with no intervening release leave at
most one session active, whatever the outcomes of the external mount
commands and verifications. -/
theorem c8_acquire_single_session (s : MountState) (m1 v1 m2 v2 : Bool)
    (h : s.sessions ≤ 1) :
    (unmount_cifs_share s).sessions = 0 ∧
    ((mount_cifs_share m2 v2 (mount_cifs_share m1 v1 s).1).1).sessions ≤ 1 := by
  constructor
  · simp only [unmount_cifs_share]
    omega
  · cases m1 <;> cases m2 <;>
      simp [mount_cifs_share, unmount_cifs_share] <;> omega

/-- C8 witness: one stale session, both mounts succeed and verify. -/
theorem c8_acquire_single_session_witness :
    (unmount_cifs_share ⟨1⟩).sessions = 0 ∧
    ((mount_cifs_share true true (mount_cifs_share true true ⟨1⟩).1).1).sessions ≤ 1 :=
  c8_acquire_single_session ⟨1⟩ true true true true (by decide)

/-! ## Claims about the Transfer Supervisor -/

@[simp] lemma logLine_procRunning (l : List Char) (s : SupState) :
    (logLine l s).procRunning = s.procRunning := by
  unfold logLine; cases parse_rsync_output l <;> rfl

@[simp] lemma logLine_unmounts (l : List Char) (s : SupState) :
    (logLine l s).unmounts = s.unmounts := by
  unfold logLine; cases parse_rsync_output l <;> rfl

@[simp] lemma logLine_linkLostWarned (l : List Char) (s : SupState) :
    (logLine l s).linkLostWarned = s.linkLostWarned := by
  unfold logLine; cases parse_rsync_output l <;> rfl

@[simp] lemma logLine_completedLogged (l : List Char) (s : SupState) :
    (logLine l s).completedLogged = s.completedLogged := by
  unfold logLine; cases parse_rsync_output l <;> rfl

lemma logLine_audit (l : List Char) (s : SupState) :
    (logLine l s).audit = s.audit ++ (parse_rsync_output l).toList := by
  unfold logLine; cases parse_rsync_output l <;> simp

/-- The read loop never logs the completed-successfully message. -/
lemma rsyncLoop_completedLogged (alive : Nat → Bool) :
    ∀ (lines : List (List Char)) (i : Nat) (s : SupState),
      (rsyncLoop alive lines i s).completedLogged = s.completedLogged := by
  intro lines
  induction lines with
  | nil => intro i s; rfl
  | cons l rest ih =>
    intro i s
    by_cases ha : alive i = true
    · simp only [rsyncLoop]
      rw [if_pos ha, ih]
      simp
    · simp only [rsyncLoop]
      rw [if_neg ha]
      simp only [supUnmount, terminate_rsync]
      split <;> simp

/-- If the monitor's `alive` flag reads false at one of the checks made
while lines remain in the stream, the read loop breaks there: the process
has been terminated (return code -15), exactly one extra unmount happened
inside the loop, and the link-lost warning was logged. -/
lemma rsyncLoop_break (alive : Nat → Bool) :
    ∀ (lines : List (List Char)) (i : Nat) (s : SupState),
      s.procRunning = true →
      (∃ j, j < lines.length ∧ alive (i + j) = false) →
      (rsyncLoop alive lines i s).procRunning = false ∧
      (rsyncLoop alive lines i s).returncode = -15 ∧
      (rsyncLoop alive lines i s).unmounts = s.unmounts + 1 ∧
      (rsyncLoop alive lines i s).linkLostWarned = true := by
  intro lines
  induction lines with
  | nil =>
    rintro i s hp ⟨j, hj, _⟩
    exact absurd hj (by simp)
  | cons l rest ih =>
    rintro i s hp ⟨j, hj, hfalse⟩
    by_cases ha : alive i = true
    · have hj0 : j ≠ 0 := by
        rintro rfl
        rw [Nat.add_zero, ha] at hfalse
        cases hfalse
      obtain ⟨j', rfl⟩ : ∃ j', j = j' + 1 :=
        ⟨j - 1, (Nat.succ_pred_eq_of_pos (Nat.pos_of_ne_zero hj0)).symm⟩
      have hrec := ih (i + 1) (logLine l s) (by simp [hp])
        ⟨j', by simpa using hj, by rw [show i + 1 + j' = i + (j' + 1) by omega]; exact hfalse⟩
      simp only [rsyncLoop, ha, if_true]
      exact ⟨hrec.1, hrec.2.1, by rw [hrec.2.2.1, logLine_unmounts], hrec.2.2.2⟩
    · simp only [rsyncLoop, ha, if_false]
      refine ⟨?_, ?_, ?_, ?_⟩ <;>
        simp [supUnmount, terminate_rsync, hp]

/-- C2 counterexample.  The monitor flag is already false at the first
check, the stream holds one created-file line: on this link-lost path
`unmount_cifs_share()` runs three times — inside the loop (line 296), in
the non-zero-return-code branch (line 305), and in the `finally`
(line 315) — where the claim requires exactly one release. -/
theorem c2_counterexample :
    (rsync_files [">f+++++++++ a".toList] (fun _ => false) 0 true).unmounts = 3 ∧
    (rsync_files [">f+++++++++ a".toList] (fun _ => false) 0 true).unmounts ≠ 1 := by
  decide

/-- C2 (amended): when the `alive` flag reads false at one of the mid-stream
checks, the read loop logs the link-lost warning and terminates rsync — the
subprocess is indeed no longer running when `rsync_files` returns, and the
monitor is stopped — but `rsync_files` has no outcome value (it returns
`None` on every path); the terminated transfer is additionally reported as
an rsync failure (the terminated process's non-zero return code takes the
failure branch, so no success is logged), and the mount is released three
times on this path, not exactly once. -/
theorem c2_link_lost_cleanup (lines : List (List Char)) (alive : Nat → Bool)
    (exitCode : Int) (h : ∃ j, j < lines.length ∧ alive j = false) :
    (rsync_files lines alive exitCode true).procRunning = false ∧
    (rsync_files lines alive exitCode true).linkLostWarned = true ∧
    (rsync_files lines alive exitCode true).failedLogged = true ∧
    (rsync_files lines alive exitCode true).completedLogged = false ∧
    (rsync_files lines alive exitCode true).monitorStopped = true ∧
    (rsync_files lines alive exitCode true).unmounts = 3 := by
  have hb := rsyncLoop_break alive lines 0
    { procRunning := true, returncode := 0, unmounts := 0, audit := [],
      linkLostWarned := false, failedLogged := false, completedLogged := false,
      monitorStopped := false }
    rfl (by obtain ⟨j, hj, hf⟩ := h; exact ⟨j, hj, by simpa using hf⟩)
  obtain ⟨h1, h2, h3, h4⟩ := hb
  simp only [rsync_files, Bool.not_true, Bool.false_eq_true, if_false]
  simp only [procWait, h1, Bool.false_eq_true, if_false]
  rw [if_pos (by rw [h2]; decide)]
  simp only [terminate_rsync, supUnmount]
  simp [h1, h2, h3, h4, rsyncLoop_completedLogged]

/-- C2 witness: a one-line stream with the flag false at the first check. -/
theorem c2_link_lost_cleanup_witness :
    (rsync_files [">f+++++++++ a".toList] (fun _ => false) 0 true).procRunning = false ∧
    (rsync_files [">f+++++++++ a".toList] (fun _ => false) 0 true).linkLostWarned = true ∧
    (rsync_files [">f+++++++++ a".toList] (fun _ => false) 0 true).failedLogged = true ∧
    (rsync_files [">f+++++++++ a".toList] (fun _ => false) 0 true).completedLogged = false ∧
    (rsync_files [">f+++++++++ a".toList] (fun _ => false) 0 true).monitorStopped = true ∧
    (rsync_files [">f+++++++++ a".toList] (fun _ => false) 0 true).unmounts = 3 :=
  c2_link_lost_cleanup [">f+++++++++ a".toList] (fun _ => false) 0
    ⟨0, by decide, rfl⟩

@[simp] lemma supUnmount_audit (s : SupState) : (supUnmount s).audit = s.audit := rfl

@[simp] lemma terminate_rsync_audit (s : SupState) :
    (terminate_rsync s).audit = s.audit := by
  unfold terminate_rsync; split <;> rfl

@[simp] lemma procWait_audit (ec : Int) (s : SupState) :
    (procWait ec s).audit = s.audit := by
  unfold procWait; split <;> rfl

/-- The audit entries appended by the read loop are exactly the non-`none`
classifications of the lines read before the loop stopped. -/
lemma rsyncLoop_audit (alive : Nat → Bool) :
    ∀ (lines : List (List Char)) (i : Nat) (s : SupState),
      ∃ k, (rsyncLoop alive lines i s).audit
        = s.audit ++ (lines.take k).filterMap parse_rsync_output := by
  intro lines
  induction lines with
  | nil => intro i s; exact ⟨0, by simp [rsyncLoop]⟩
  | cons l rest ih =>
    intro i s
    by_cases ha : alive i = true
    · obtain ⟨k, hk⟩ := ih (i + 1) (logLine l s)
      refine ⟨k + 1, ?_⟩
      simp only [rsyncLoop]
      rw [if_pos ha, hk, logLine_audit]
      cases hp : parse_rsync_output l <;>
        simp [hp, List.filterMap_cons]
    · refine ⟨1, ?_⟩
      simp only [rsyncLoop]
      rw [if_neg ha]
      rw [supUnmount_audit, terminate_rsync_audit]
      have : ({ logLine l s with linkLostWarned := true } : SupState).audit
          = (logLine l s).audit := rfl
      rw [this, logLine_audit]
      cases hp : parse_rsync_output l <;> simp [hp, List.filterMap_cons]

/-- The extracted `change_type` only depends on the first 11 characters. -/
lemma change_type_append (m p : List Char) (h : 11 ≤ m.length) :
    change_type (m ++ p) = change_type m := by
  unfold change_type
  rw [List.take_append_of_le_length h]

/-- C6: the "no transfer needed" markers (unchanged file `.f.........`,
unchanged directory `.d.........`, unchanged symlink `.L.........`)
classify to `none` whatever path follows, and the audit log produced by the
read loop consists exactly of the non-`none` classifications of the lines
it read — a `none` classification is never appended (lines 285-290 append
only when `parse_rsync_output` returned a message). -/
theorem c6_noop_lines_never_logged :
    (∀ p : List Char, parse_rsync_output (".f......... ".toList ++ p) = none) ∧
    (∀ p : List Char, parse_rsync_output (".d......... ".toList ++ p) = none) ∧
    (∀ p : List Char, parse_rsync_output (".L......... ".toList ++ p) = none) ∧
    (∀ (lines : List (List Char)) (alive : Nat → Bool) (exitCode : Int) (mounted : Bool),
      ∃ k, (rsync_files lines alive exitCode mounted).audit
        = (lines.take k).filterMap parse_rsync_output) := by
  refine ⟨?_, ?_, ?_, ?_⟩
  · intro p
    unfold parse_rsync_output
    rw [change_type_append _ _ (by decide)]
    rfl
  · intro p
    unfold parse_rsync_output
    rw [change_type_append _ _ (by decide)]
    rfl
  · intro p
    unfold parse_rsync_output
    rw [change_type_append _ _ (by decide)]
    rfl
  · intro lines alive exitCode mounted
    cases mounted with
    | false => exact ⟨0, by simp [rsync_files]⟩
    | true =>
      obtain ⟨k, hk⟩ := rsyncLoop_audit alive lines 0
        { procRunning := true, returncode := 0, unmounts := 0, audit := [],
          linkLostWarned := false, failedLogged := false, completedLogged := false,
          monitorStopped := false }
      refine ⟨k, ?_⟩
      simp only [rsync_files, Bool.not_true, Bool.false_eq_true, if_false]
      split <;> simpa using hk

/-! ## Claims about classifier totality (C5) -/

/-- The 23 patterns tested by the `if/elif` chain of `parse_rsync_output`,
in source order; a `change_type` matching none of them reaches the
catch-all. -/
def inClassifierTable (ct : List Char) : Bool :=
  pyStartsWith ct ">f+++++++++".toList ||
  pyStartsWith ct ">f..t......".toList ||
  pyStartsWith ct ">f.p.......".toList ||
  pyStartsWith ct ">f..o......".toList ||
  pyStartsWith ct ">f.s.......".toList ||
  pyStartsWith ct ">L+++++++++".toList ||
  pyStartsWith ct ">h+++++++++".toList ||
  pyStartsWith ct ">c+++++++++".toList ||
  pyStartsWith ct ">b+++++++++".toList ||
  pyStartsWith ct ">sf+++++++++".toList ||
  pyStartsWith ct "cd+++++++++".toList ||
  pyStartsWith ct ".d..t......".toList ||
  pyStartsWith ct ".d..tp.....".toList ||
  pyStartsWith ct ".f".toList ||
  pyStartsWith ct ".d".toList ||
  pyStartsWith ct "cL".toList ||
  pyStartsWith ct ".L".toList ||
  pyStartsWith ct "c".toList ||
  pyStartsWith ct "b".toList ||
  pyStartsWith ct "s".toList ||
  pyStartsWith ct ">".toList ||
  pyStartsWith ct ".d...p.....".toList ||
  pyStartsWith ct ".f...p.....".toList

/-- Does a classification come from the `unrecognized` catch-all? -/
def isUnrecognizedMsg : Option RsyncMsg → Bool
  | some (RsyncMsg.unrecognized _ _) => true
  | _ => false

/-- C5 counterexample.  The truncated line `".f"` (shorter than 11
characters) does *not* fall through to the `unrecognized` catch-all as the
claim states: it matches the `.f` no-op branch first and classifies to
`none`. -/
theorem c5_counterexample :
    isUnrecognizedMsg (parse_rsync_output ".f".toList) = false ∧
    parse_rsync_output ".f".toList = none := by
  decide

/-- C5 (amended): `classify` is total — every line, of any length,
including those whose prefix is shorter than 11 characters, is classified
by the same priority-ordered chain without raising — and any line whose
`change_type` matches *no* pattern of the table reaches the catch-all,
which preserves the original prefix text verbatim.  A short prefix,
however, is not guaranteed to reach the catch-all: it is taken by the first
matching branch (e.g. `".f"` classifies to `none`). -/
theorem c5_classifier_total (line : List Char)
    (h : inClassifierTable (change_type line) = false) :
    parse_rsync_output line
      = some (.unrecognized (file_path line) (change_type line)) := by
  unfold inClassifierTable at h
  obtain ⟨g, h23⟩ := Bool.or_eq_false_iff.mp h
  obtain ⟨g, h22⟩ := Bool.or_eq_false_iff.mp g
  obtain ⟨g, h21⟩ := Bool.or_eq_false_iff.mp g
  obtain ⟨g, h20⟩ := Bool.or_eq_false_iff.mp g
  obtain ⟨g, h19⟩ := Bool.or_eq_false_iff.mp g
  obtain ⟨g, h18⟩ := Bool.or_eq_false_iff.mp g
  obtain ⟨g, h17⟩ := Bool.or_eq_false_iff.mp g
  obtain ⟨g, h16⟩ := Bool.or_eq_false_iff.mp g
  obtain ⟨g, h15⟩ := Bool.or_eq_false_iff.mp g
  obtain ⟨g, h14⟩ := Bool.or_eq_false_iff.mp g
  obtain ⟨g, h13⟩ := Bool.or_eq_false_iff.mp g
  obtain ⟨g, h12⟩ := Bool.or_eq_false_iff.mp g
  obtain ⟨g, h11⟩ := Bool.or_eq_false_iff.mp g
  obtain ⟨g, h10⟩ := Bool.or_eq_false_iff.mp g
  obtain ⟨g, h9⟩ := Bool.or_eq_false_iff.mp g
  obtain ⟨g, h8⟩ := Bool.or_eq_false_iff.mp g
  obtain ⟨g, h7⟩ := Bool.or_eq_false_iff.mp g
  obtain ⟨g, h6⟩ := Bool.or_eq_false_iff.mp g
  obtain ⟨g, h5⟩ := Bool.or_eq_false_iff.mp g
  obtain ⟨g, h4⟩ := Bool.or_eq_false_iff.mp g
  obtain ⟨g, h3⟩ := Bool.or_eq_false_iff.mp g
  obtain ⟨h1, h2⟩ := Bool.or_eq_false_iff.mp g
  unfold parse_rsync_output classify_change
  simp only [h1, h2, h3, h4, h5, h6, h7, h8, h9, h10, h11, h12, h13, h14, h15, h16,
    h17, h18, h19, h20, h21, h22, h23]
  rfl

/-- C5 witness: an 11-character prefix outside the table reaches the
catch-all with the prefix preserved. -/
theorem c5_classifier_total_witness :
    parse_rsync_output "zzzzzzzzzzz a".toList
      = some (.unrecognized "a".toList "zzzzzzzzzzz".toList) := by
  rw [c5_classifier_total "zzzzzzzzzzz a".toList (by decide)]
  decide

/-! ## Claims about the Deletion Auditor -/

/-- C7: the reported deleted set is exactly `D − S` as a set difference of
the destination and source relative-path enumerations: it is invariant
under reordering either enumeration, an empty source enumeration reports
all destination files, an empty destination enumeration reports nothing,
and the audit loop writes one entry per reported path (no duplicates, no
omissions). -/
theorem c7_deletion_set_difference (S D S2 D2 : List String)
    (hS : S.Perm S2) (hD : D.Perm D2) :
    deleted_files S D = D.toFinset \ S.toFinset ∧
    deleted_files S D = deleted_files S2 D2 ∧
    deleted_files [] D = D.toFinset ∧
    deleted_files S [] = (∅ : Finset String) ∧
    (deletion_audit_entries S D).Nodup ∧
    (deletion_audit_entries S D).toFinset = deleted_files S D := by
  refine ⟨rfl, ?_, ?_, ?_, Finset.sort_nodup _ _, Finset.sort_toFinset _ _⟩
  · unfold deleted_files
    rw [List.toFinset_eq_of_perm _ _ hS, List.toFinset_eq_of_perm _ _ hD]
  · simp [deleted_files]
  · simp [deleted_files]

/-- C7 witness: source `{a}`, destination `{a, b}` in two enumeration
orders; the reported set is `{b}` either way. -/
theorem c7_deletion_set_difference_witness :
    deleted_files ["a"] ["a", "b"]
      = (["a", "b"] : List String).toFinset \ (["a"] : List String).toFinset ∧
    deleted_files ["a"] ["a", "b"] = deleted_files ["a"] ["b", "a"] ∧
    deleted_files [] ["a", "b"] = (["a", "b"] : List String).toFinset ∧
    deleted_files ["a"] [] = (∅ : Finset String) ∧
    (deletion_audit_entries ["a"] ["a", "b"]).Nodup ∧
    (deletion_audit_entries ["a"] ["a", "b"]).toFinset = deleted_files ["a"] ["a", "b"] :=
  c7_deletion_set_difference ["a"] ["a", "b"] ["a"] ["b", "a"]
    (List.Perm.refl _) (List.Perm.swap "b" "a" [])

/-- C10: `get_file_list` collects only the `files` component of each
`os.walk` triple, so every reported deleted path is a file path of the
destination walk, and a directory that exists only at the destination —
its path appearing in a `dirs` component but in no `files` component — is
never reported as deleted. -/
theorem c10_only_files_reported (srcW destW : List WalkEntry) :
    (∀ p, p ∈ log_deleted_files srcW destW → p ∈ get_file_list destW) ∧
    (∀ e ∈ destW, ∀ d ∈ e.dirs,
      pathJoin e.root d ∉ get_file_list destW →
      pathJoin e.root d ∉ log_deleted_files srcW destW) := by
  have hmain : ∀ p, p ∈ log_deleted_files srcW destW → p ∈ get_file_list destW := by
    intro p hp
    simp only [log_deleted_files, deleted_files, Finset.mem_sdiff,
      List.mem_toFinset] at hp
    exact hp.1
  exact ⟨hmain, fun e _ d _ hnot hmem => hnot (hmain _ hmem)⟩

/-- C10 witness: the destination holds one file `f.txt` and one empty
directory `d` absent from the (empty) source; `f.txt` is enumerated as a
file, and `d` is not reported as deleted. -/
theorem c10_only_files_reported_witness :
    "f.txt" ∈ get_file_list [⟨"", ["d"], ["f.txt"]⟩] ∧
    pathJoin "" "d" ∉ log_deleted_files [] [⟨"", ["d"], ["f.txt"]⟩] :=
  ⟨(c10_only_files_reported [] [⟨"", ["d"], ["f.txt"]⟩]).1 "f.txt" (by decide),
   (c10_only_files_reported [] [⟨"", ["d"], ["f.txt"]⟩]).2 ⟨"", ["d"], ["f.txt"]⟩
     (by decide) "d" (by decide) (by decide)⟩

end Winb4ckup
